import Mathlib

/-!
Shallow embedding of `src/api_sdk_1/agent_eval_sdk.py`, the client SDK for a
remote agent-evaluation API.  The embedding covers the evaluation polling
core: the `Evaluation` object (`__init__`, `refresh`, `wait_for_completion`,
`cancel`) and the error mapping of `EvalClient._request` for GET requests.

Modelling conventions:
* The remote service is an input: a fetch outcome (`Except SdkError EvalData`)
  per poll, indexed by poll number.  `EvalClient._request` is embedded
  separately as a map from an HTTP transport outcome to such a fetch outcome.
* Time is idealized as in the spec: each `time.sleep(POLLING_INTERVAL)`
  advances the clock by exactly `POLLING_INTERVAL` units and everything else
  is instantaneous, so the `n`-th poll (0-indexed) happens at elapsed time
  `2 * n`.
* Python exceptions become an inductive `SdkError`; `raise` becomes
  `Except.error`.
-/

namespace AgentEvalSdk

/-- `POLLING_INTERVAL = 2` (module-level constant in the source). -/
def POLLING_INTERVAL : Nat := 2

/-- Errors the SDK can raise.  `EvalException(message, code=None, details=None)`
is the SDK's base exception (we omit the always-empty `details` dict);
`TimeoutError` and `NotImplementedError` are Python builtins, hence separate
constructors. -/
inductive SdkError where
  | evalException (message : String) (code : Option String)
  | timeoutError (message : String)
  | notImplementedError (message : String)
  deriving DecidableEq, Repr

/-- `EvalStatus` enumeration from the source. -/
inductive EvalStatus where
  | PENDING
  | RUNNING
  | COMPLETED
  | FAILED
  deriving DecidableEq, Repr

/-- `.value` of each `EvalStatus` enum member. -/
def EvalStatus.value : EvalStatus → String
  | .PENDING => "pending"
  | .RUNNING => "running"
  | .COMPLETED => "completed"
  | .FAILED => "failed"

/-- `EvaluationResults` dataclass.  Python floats are modelled as rationals;
no claim depends on float rounding. -/
structure EvaluationResults where
  overall_score : ℚ
  passed_tests : Nat
  failed_tests : Nat
  categories : List (String × ℚ)
  execution_time_seconds : Int
  deriving DecidableEq, Repr

/-- One evaluation payload as returned by the API
(`GET /evaluations/{id}` / `POST /evaluations`): the keys read by
`Evaluation.__init__` and `Evaluation.refresh`.  `results = none` models the
`"results"` key being absent from the dict; `config = none` models the
`"config"` key being absent (`data.get("config", {})`). -/
structure EvalData where
  id : String
  agent_id : String
  test_suite_id : String
  status : String
  config : Option (List (String × String))
  created_at : String
  organization : String
  results : Option EvaluationResults
  deriving DecidableEq, Repr

/-- Local state of an `Evaluation` object: the fields set in
`Evaluation.__init__` and mutated by `Evaluation.refresh` (the `client`
back-reference is not state; the fetches it performs are explicit inputs
below).  `raw_data` embeds `self._raw_data`. -/
structure EvaluationState where
  id : String
  agent_id : String
  test_suite_id : String
  status : String
  config : List (String × String)
  created_at : String
  organization : String
  results : Option EvaluationResults
  raw_data : EvalData
  deriving DecidableEq, Repr

namespace Evaluation

/-- `Evaluation.__init__(self, client, data)`: copies the identifying fields,
takes `status` from the payload, and always sets `self.results = None`. -/
def init (data : EvalData) : EvaluationState where
  id := data.id
  agent_id := data.agent_id
  test_suite_id := data.test_suite_id
  status := data.status
  config := data.config.getD []
  created_at := data.created_at
  organization := data.organization
  results := none
  raw_data := data

/-- The field updates of `Evaluation.refresh` once `self.client._get` has
returned `data`: overwrite `status` and `_raw_data`, and overwrite `results`
only when the `"results"` key is present. -/
def applyFetch (e : EvaluationState) (data : EvalData) : EvaluationState :=
  { e with
    status := data.status
    raw_data := data
    results := match data.results with
      | some r => some r
      | none => e.results }

/-- `Evaluation.refresh(self)`: performs `self.client._get(...)` (the outcome
of which is the argument `fetch`) and, if it succeeded, applies the field
updates; if the fetch raised, the exception propagates before any field is
assigned. -/
def refresh (e : EvaluationState) (fetch : Except SdkError EvalData) :
    Except SdkError EvaluationState :=
  match fetch with
  | .error err => .error err
  | .ok data => .ok (applyFetch e data)

deriving instance DecidableEq for Except

/-- Everything observable about one `wait_for_completion` call: the returned
value or raised error, the final local state of the `Evaluation` object, how
many times `refresh` was called, how many times `time.sleep` ran, and the
elapsed time (in the idealized clock) at the moment of return/raise. -/
structure WaitOutcome where
  result : Except SdkError EvaluationResults
  finalState : EvaluationState
  refreshCalls : Nat
  sleeps : Nat
  elapsed : Nat
  deriving DecidableEq, Repr

/-- The `while` loop of `Evaluation.wait_for_completion`, entered with `n`
refreshes (and `n` sleeps) already behind us, so the clock reads `2 * n`.
`polls k` is the outcome of the `self.client._get` call inside the `k`-th
`refresh` (0-indexed).  The loop guard is the source's
`time.time() - start_time < timeout`. -/
def waitFrom (polls : Nat → Except SdkError EvalData) (timeout : Int)
    (e : EvaluationState) (n : Nat) : WaitOutcome :=
  if h : (2 * n : Int) < timeout then
    match refresh e (polls n) with
    | .error err => ⟨.error err, e, n + 1, n, 2 * n⟩
    | .ok e' =>
      if e'.status = EvalStatus.COMPLETED.value then
        match e'.results with
        | none =>
          ⟨.error (.evalException "Evaluation completed but no results available" none),
            e', n + 1, n, 2 * n⟩
        | some r => ⟨.ok r, e', n + 1, n, 2 * n⟩
      else if e'.status = EvalStatus.FAILED.value then
        ⟨.error (.evalException ("Evaluation " ++ e'.id ++ " failed") none),
          e', n + 1, n, 2 * n⟩
      else
        waitFrom polls timeout e' (n + 1)
  else
    ⟨.error (.timeoutError
        ("Evaluation " ++ e.id ++ " timed out after " ++ toString timeout ++ " seconds")),
      e, n, n, 2 * n⟩
termination_by (timeout - 2 * n).toNat
decreasing_by omega

/-- `Evaluation.wait_for_completion(self, timeout=300)`. -/
def wait_for_completion (e : EvaluationState)
    (polls : Nat → Except SdkError EvalData) (timeout : Int := 300) : WaitOutcome :=
  waitFrom polls timeout e 0

/-- `Evaluation.cancel(self)`: unconditionally raises `NotImplementedError`. -/
def cancel (_e : EvaluationState) : Except SdkError Bool :=
  .error (.notImplementedError "Cancellation not yet implemented")

end Evaluation

/-- The possible outcomes of the HTTP transport underneath one
`self.session.get(url, timeout=self.timeout)` call: a response with a status
code and (parsed) body, or one of the `requests` exceptions caught by
`_request`.  `excMessage` is `str(e)` of the `requests.exceptions.HTTPError`
that `response.raise_for_status()` raises on a 4xx code (its exact text is
produced by the `requests` library, so it is carried as data here); it is
unused on codes below 400. -/
inductive HttpOutcome where
  | response (status_code : Nat) (body : EvalData) (excMessage : String)
  | timedOut
  | connectionError
  | requestException (message : String)
  deriving DecidableEq, Repr

namespace EvalClient

/-- `EvalClient._request("GET", endpoint)` (the path taken by `_get`): maps
the transport outcome to either the parsed body or the `EvalException` the
method raises.  `timeoutCfg` is `self.timeout` (default 30), used only in the
timeout message. -/
def request_get (timeoutCfg : Int) (endpoint : String) (o : HttpOutcome) :
    Except SdkError EvalData :=
  match o with
  | .response sc body excMessage =>
    if sc = 401 then .error (.evalException "Invalid API key" (some "AUTH_ERROR"))
    else if sc = 404 then
      .error (.evalException ("Resource not found: " ++ endpoint) (some "NOT_FOUND"))
    else if 500 ≤ sc then .error (.evalException "Server error" (some "SERVER_ERROR"))
    else if 400 ≤ sc then
      .error (.evalException ("API request failed: " ++ excMessage) (some "REQUEST_ERROR"))
    else .ok body
  | .timedOut =>
    .error (.evalException ("Request timed out after " ++ toString timeoutCfg ++ "s")
      (some "TIMEOUT"))
  | .connectionError => .error (.evalException "Connection failed" (some "CONNECTION_ERROR"))
  | .requestException m =>
    .error (.evalException ("API request failed: " ++ m) (some "REQUEST_ERROR"))

end EvalClient

/-- Number of loop iterations `wait_for_completion` performs when no
iteration exits early: the `n`-th iteration (0-indexed) runs iff `2 * n <
timeout`, so there are `⌈timeout / 2⌉` iterations for positive `timeout` and
none otherwise. -/
def iterBudget (timeout : Int) : Nat := (timeout.toNat + 1) / 2

/-- The spec's data-model invariant: the local result payload is non-null iff
the local status is `"completed"`. -/
def resultsInv (e : EvaluationState) : Prop :=
  e.results ≠ none ↔ e.status = EvalStatus.COMPLETED.value

/-- A service payload that itself respects the spec's data model: it carries
a `results` field exactly when its status is `"completed"`. -/
def wellBehavedPayload (d : EvalData) : Prop :=
  d.results ≠ none ↔ d.status = EvalStatus.COMPLETED.value

/-- The set of outcomes claim C1 allows for `wait_for_completion` on an
evaluation `e` with budget `timeout`: a returned payload, the
`EvaluationFailed` exception, or the `Timeout` exception. -/
def c1ClaimOutcomes (e : EvaluationState) (timeout : Int)
    (res : Except SdkError EvaluationResults) : Prop :=
  (∃ r, res = .ok r) ∨
  res = .error (.evalException ("Evaluation " ++ e.id ++ " failed") none) ∨
  res = .error (.timeoutError
    ("Evaluation " ++ e.id ++ " timed out after " ++ toString timeout ++ " seconds"))

/-! Concrete sample data, used to instantiate theorems with hypotheses. -/

/-- A concrete result payload. -/
def sampleResults : EvaluationResults :=
  ⟨7/8, 22, 3, [("reasoning", 9/10)], 120⟩

/-- A concrete `GET /evaluations/{id}` payload with the given status and
optional results. -/
def sampleData (status : String) (results : Option EvaluationResults) : EvalData :=
  ⟨"eval_001", "agent_123", "suite_001", status, none, "2024-01-01T00:00:00Z",
    "org_001", results⟩

/-- A freshly constructed evaluation whose creation payload reports
`"pending"`. -/
def sampleEval : EvaluationState := Evaluation.init (sampleData "pending" none)

/-- Mock service: `pending`, then `running`, then `completed` with a payload. -/
def pollsPRC : Nat → Except SdkError EvalData := fun k =>
  .ok (sampleData
    (if k = 0 then "pending" else if k = 1 then "running" else "completed")
    (if k ≤ 1 then none else some sampleResults))

/-- Mock service that never leaves `running`. -/
def pollsRunning : Nat → Except SdkError EvalData := fun _ =>
  .ok (sampleData "running" none)

/-- Mock service that reports `failed` on every fetch. -/
def pollsFailed : Nat → Except SdkError EvalData := fun _ =>
  .ok (sampleData "failed" none)

/-- Mock service that reports `completed` with no `results` field. -/
def pollsCompletedEmpty : Nat → Except SdkError EvalData := fun _ =>
  .ok (sampleData "completed" none)

/-- Mock transport whose every request fails to connect. -/
def transportConnFail : Nat → HttpOutcome := fun _ => .connectionError

/-- Fetch outcomes seen by `refresh` over the connection-failing transport. -/
def pollsConnFail : Nat → Except SdkError EvalData := fun k =>
  EvalClient.request_get 30 "/evaluations/eval_001" (transportConnFail k)

namespace Evaluation

lemma applyFetch_id (e : EvaluationState) (d : EvalData) :
    (applyFetch e d).id = e.id := rfl

lemma applyFetch_status (e : EvaluationState) (d : EvalData) :
    (applyFetch e d).status = d.status := rfl

/-- Loop guard false: `wait_for_completion` raises `TimeoutError` having done
nothing further. -/
lemma waitFrom_timeout (polls : Nat → Except SdkError EvalData) (timeout : Int)
    (e : EvaluationState) (n : Nat) (h : ¬ (2 * n : Int) < timeout) :
    waitFrom polls timeout e n =
      ⟨.error (.timeoutError
          ("Evaluation " ++ e.id ++ " timed out after " ++ toString timeout ++ " seconds")),
        e, n, n, 2 * n⟩ := by
  rw [waitFrom, dif_neg h]

/-- The fetch inside `refresh` raised: the exception propagates at once. -/
lemma waitFrom_error (polls : Nat → Except SdkError EvalData) (timeout : Int)
    (e : EvaluationState) (n : Nat) (err : SdkError)
    (hg : (2 * n : Int) < timeout) (hp : polls n = .error err) :
    waitFrom polls timeout e n = ⟨.error err, e, n + 1, n, 2 * n⟩ := by
  rw [waitFrom, dif_pos hg]
  simp only [hp, refresh]

/-- Fetch reports `completed` and a result payload is present locally. -/
lemma waitFrom_completed_some (polls : Nat → Except SdkError EvalData) (timeout : Int)
    (e : EvaluationState) (n : Nat) (d : EvalData) (r : EvaluationResults)
    (hg : (2 * n : Int) < timeout) (hp : polls n = .ok d)
    (hs : d.status = "completed") (hr : (applyFetch e d).results = some r) :
    waitFrom polls timeout e n = ⟨.ok r, applyFetch e d, n + 1, n, 2 * n⟩ := by
  rw [waitFrom, dif_pos hg]
  simp only [hp, refresh]
  rw [if_pos (show (applyFetch e d).status = EvalStatus.COMPLETED.value by
    rw [applyFetch_status, hs]; rfl)]
  rw [hr]

/-- Fetch reports `completed` but no result payload is present locally. -/
lemma waitFrom_completed_none (polls : Nat → Except SdkError EvalData) (timeout : Int)
    (e : EvaluationState) (n : Nat) (d : EvalData)
    (hg : (2 * n : Int) < timeout) (hp : polls n = .ok d)
    (hs : d.status = "completed") (hr : (applyFetch e d).results = none) :
    waitFrom polls timeout e n =
      ⟨.error (.evalException "Evaluation completed but no results available" none),
        applyFetch e d, n + 1, n, 2 * n⟩ := by
  rw [waitFrom, dif_pos hg]
  simp only [hp, refresh]
  rw [if_pos (show (applyFetch e d).status = EvalStatus.COMPLETED.value by
    rw [applyFetch_status, hs]; rfl)]
  rw [hr]

/-- Fetch reports `failed`: `EvaluationFailed` is raised. -/
lemma waitFrom_failed (polls : Nat → Except SdkError EvalData) (timeout : Int)
    (e : EvaluationState) (n : Nat) (d : EvalData)
    (hg : (2 * n : Int) < timeout) (hp : polls n = .ok d)
    (hs : d.status = "failed") :
    waitFrom polls timeout e n =
      ⟨.error (.evalException ("Evaluation " ++ e.id ++ " failed") none),
        applyFetch e d, n + 1, n, 2 * n⟩ := by
  rw [waitFrom, dif_pos hg]
  simp only [hp, refresh]
  rw [if_neg (show ¬ (applyFetch e d).status = EvalStatus.COMPLETED.value by
    rw [applyFetch_status, hs]; simp [EvalStatus.value])]
  rw [if_pos (show (applyFetch e d).status = EvalStatus.FAILED.value by
    rw [applyFetch_status, hs]; rfl)]
  rw [show (applyFetch e d).id = e.id from rfl]

/-- Fetch reports a non-terminal status: sleep and poll again. -/
lemma waitFrom_continue (polls : Nat → Except SdkError EvalData) (timeout : Int)
    (e : EvaluationState) (n : Nat) (d : EvalData)
    (hg : (2 * n : Int) < timeout) (hp : polls n = .ok d)
    (hnc : d.status ≠ "completed") (hnf : d.status ≠ "failed") :
    waitFrom polls timeout e n = waitFrom polls timeout (applyFetch e d) (n + 1) := by
  rw [waitFrom, dif_pos hg]
  simp only [hp, refresh]
  rw [if_neg (show ¬ (applyFetch e d).status = EvalStatus.COMPLETED.value by
    rw [applyFetch_status]; exact hnc)]
  rw [if_neg (show ¬ (applyFetch e d).status = EvalStatus.FAILED.value by
    rw [applyFetch_status]; exact hnf)]

lemma refresh_error_iff (e : EvaluationState) (f : Except SdkError EvalData)
    (err : SdkError) : refresh e f = .error err ↔ f = .error err := by
  cases f <;> simp [refresh]

lemma refresh_ok_iff (e : EvaluationState) (f : Except SdkError EvalData)
    (e' : EvaluationState) :
    refresh e f = .ok e' ↔ ∃ d, f = .ok d ∧ e' = applyFetch e d := by
  cases f <;> simp [refresh, eq_comm]

/-- The loop guard is equivalent to the iteration count being below the
budget `⌈timeout / 2⌉`. -/
lemma two_mul_lt_iff (timeout : Int) (n : Nat) :
    (2 * n : Int) < timeout ↔ n < iterBudget timeout := by
  unfold iterBudget
  omega

/-- Timing shape of every run: elapsed time is the polling interval times the
number of sleeps, and at most one refresh is not followed by a sleep. -/
lemma waitFrom_shape (polls : Nat → Except SdkError EvalData) (timeout : Int) :
    ∀ (e : EvaluationState) (n : Nat),
      (waitFrom polls timeout e n).elapsed
          = POLLING_INTERVAL * (waitFrom polls timeout e n).sleeps ∧
      ((waitFrom polls timeout e n).refreshCalls = (waitFrom polls timeout e n).sleeps ∨
       (waitFrom polls timeout e n).refreshCalls = (waitFrom polls timeout e n).sleeps + 1) := by
  intro e n
  induction e, n using waitFrom.induct polls timeout with
  | case1 e n hg err herr =>
    rw [waitFrom_error polls timeout e n err hg ((refresh_error_iff e _ err).mp herr)]
    exact ⟨rfl, Or.inr rfl⟩
  | case2 e n hg e' hok hs hr =>
    obtain ⟨d, hp, he'⟩ := (refresh_ok_iff e _ e').mp hok
    subst he'
    rw [waitFrom_completed_none polls timeout e n d hg hp (by rw [← applyFetch_status e d]; exact hs) hr]
    exact ⟨rfl, Or.inr rfl⟩
  | case3 e n hg e' hok hs r hr =>
    obtain ⟨d, hp, he'⟩ := (refresh_ok_iff e _ e').mp hok
    subst he'
    rw [waitFrom_completed_some polls timeout e n d r hg hp (by rw [← applyFetch_status e d]; exact hs) hr]
    exact ⟨rfl, Or.inr rfl⟩
  | case4 e n hg e' hok hnc hs =>
    obtain ⟨d, hp, he'⟩ := (refresh_ok_iff e _ e').mp hok
    subst he'
    rw [waitFrom_failed polls timeout e n d hg hp (by rw [← applyFetch_status e d]; exact hs)]
    exact ⟨rfl, Or.inr rfl⟩
  | case5 e n hg e' hok hnc hnf ih =>
    obtain ⟨d, hp, he'⟩ := (refresh_ok_iff e _ e').mp hok
    subst he'
    rw [waitFrom_continue polls timeout e n d hg hp
      (by rw [← applyFetch_status e d]; exact hnc) (by rw [← applyFetch_status e d]; exact hnf)]
    exact ih
  | case6 e n hg =>
    rw [waitFrom_timeout polls timeout e n hg]
    exact ⟨rfl, Or.inl rfl⟩

/-- Exhaustive case split on the outcome of the polling loop: a returned
payload (status `completed`), the `EvaluationFailed` exception (status
`failed`), the missing-payload exception (status `completed`, null payload),
the `TimeoutError`, or an exception propagated out of a failed fetch. -/
lemma waitFrom_cases (polls : Nat → Except SdkError EvalData) (timeout : Int) :
    ∀ (e : EvaluationState) (n : Nat),
      (∃ r, (waitFrom polls timeout e n).result = .ok r ∧
        (waitFrom polls timeout e n).finalState.status = "completed" ∧
        (waitFrom polls timeout e n).finalState.results = some r) ∨
      ((waitFrom polls timeout e n).result
          = .error (.evalException ("Evaluation " ++ e.id ++ " failed") none) ∧
        (waitFrom polls timeout e n).finalState.status = "failed") ∨
      ((waitFrom polls timeout e n).result
          = .error (.evalException "Evaluation completed but no results available" none) ∧
        (waitFrom polls timeout e n).finalState.status = "completed" ∧
        (waitFrom polls timeout e n).finalState.results = none) ∨
      ((waitFrom polls timeout e n).result
          = .error (.timeoutError
            ("Evaluation " ++ e.id ++ " timed out after " ++ toString timeout ++ " seconds"))) ∨
      (∃ k err, polls k = .error err ∧ (waitFrom polls timeout e n).result = .error err) := by
  intro e n
  induction e, n using waitFrom.induct polls timeout with
  | case1 e n hg err herr =>
    rw [waitFrom_error polls timeout e n err hg ((refresh_error_iff e _ err).mp herr)]
    exact Or.inr (Or.inr (Or.inr (Or.inr
      ⟨n, err, (refresh_error_iff e _ err).mp herr, rfl⟩)))
  | case2 e n hg e' hok hs hr =>
    obtain ⟨d, hp, he'⟩ := (refresh_ok_iff e _ e').mp hok
    subst he'
    rw [waitFrom_completed_none polls timeout e n d hg hp
      (by rw [← applyFetch_status e d]; exact hs) hr]
    exact Or.inr (Or.inr (Or.inl ⟨rfl, hs, hr⟩))
  | case3 e n hg e' hok hs r hr =>
    obtain ⟨d, hp, he'⟩ := (refresh_ok_iff e _ e').mp hok
    subst he'
    rw [waitFrom_completed_some polls timeout e n d r hg hp
      (by rw [← applyFetch_status e d]; exact hs) hr]
    exact Or.inl ⟨r, rfl, hs, hr⟩
  | case4 e n hg e' hok hnc hs =>
    obtain ⟨d, hp, he'⟩ := (refresh_ok_iff e _ e').mp hok
    subst he'
    rw [waitFrom_failed polls timeout e n d hg hp (by rw [← applyFetch_status e d]; exact hs)]
    exact Or.inr (Or.inl ⟨rfl, hs⟩)
  | case5 e n hg e' hok hnc hnf ih =>
    obtain ⟨d, hp, he'⟩ := (refresh_ok_iff e _ e').mp hok
    subst he'
    rw [waitFrom_continue polls timeout e n d hg hp
      (by rw [← applyFetch_status e d]; exact hnc) (by rw [← applyFetch_status e d]; exact hnf)]
    rw [show (applyFetch e d).id = e.id from rfl] at ih
    exact ih
  | case6 e n hg =>
    rw [waitFrom_timeout polls timeout e n hg]
    exact Or.inr (Or.inr (Or.inr (Or.inl rfl)))

/-- One well-behaved, completed-monotone fetch preserves the data-model
invariant. -/
lemma resultsInv_applyFetch (e : EvaluationState) (d : EvalData)
    (hI : resultsInv e) (hwb : wellBehavedPayload d)
    (hmono : e.status = EvalStatus.COMPLETED.value → d.status = EvalStatus.COMPLETED.value) :
    resultsInv (applyFetch e d) := by
  unfold resultsInv at hI ⊢
  unfold wellBehavedPayload at hwb
  unfold applyFetch
  cases hd : d.results with
  | some r =>
    simp only [hd] at hwb ⊢
    simp only [ne_eq, reduceCtorEq, not_false_eq_true, true_iff] at hwb
    simpa using hwb
  | none =>
    simp only [hd] at hwb ⊢
    constructor
    · intro hres
      exact absurd (hmono (hI.mp hres)) (by simpa using hwb)
    · intro hst
      exact absurd hst (by simpa using hwb)

/-- Under a well-behaved, completed-monotone service, the polling loop
preserves the data-model invariant on the local mirror. -/
lemma waitFrom_resultsInv (polls : Nat → Except SdkError EvalData) (timeout : Int)
    (hwb : ∀ k d, polls k = .ok d → wellBehavedPayload d)
    (hmono : ∀ j k dj dk, j ≤ k → polls j = .ok dj → polls k = .ok dk →
      dj.status = EvalStatus.COMPLETED.value → dk.status = EvalStatus.COMPLETED.value) :
    ∀ (e : EvaluationState) (n : Nat),
      resultsInv e →
      (∀ k d, n ≤ k → polls k = .ok d →
        e.status = EvalStatus.COMPLETED.value → d.status = EvalStatus.COMPLETED.value) →
      resultsInv (waitFrom polls timeout e n).finalState := by
  intro e n
  induction e, n using waitFrom.induct polls timeout with
  | case1 e n hg err herr =>
    intro hI _
    rw [waitFrom_error polls timeout e n err hg ((refresh_error_iff e _ err).mp herr)]
    exact hI
  | case2 e n hg e' hok hs hr =>
    intro hI hstart
    obtain ⟨d, hp, he'⟩ := (refresh_ok_iff e _ e').mp hok
    subst he'
    rw [waitFrom_completed_none polls timeout e n d hg hp
      (by rw [← applyFetch_status e d]; exact hs) hr]
    exact resultsInv_applyFetch e d hI (hwb n d hp) (hstart n d le_rfl hp)
  | case3 e n hg e' hok hs r hr =>
    intro hI hstart
    obtain ⟨d, hp, he'⟩ := (refresh_ok_iff e _ e').mp hok
    subst he'
    rw [waitFrom_completed_some polls timeout e n d r hg hp
      (by rw [← applyFetch_status e d]; exact hs) hr]
    exact resultsInv_applyFetch e d hI (hwb n d hp) (hstart n d le_rfl hp)
  | case4 e n hg e' hok hnc hs =>
    intro hI hstart
    obtain ⟨d, hp, he'⟩ := (refresh_ok_iff e _ e').mp hok
    subst he'
    rw [waitFrom_failed polls timeout e n d hg hp (by rw [← applyFetch_status e d]; exact hs)]
    exact resultsInv_applyFetch e d hI (hwb n d hp) (hstart n d le_rfl hp)
  | case5 e n hg e' hok hnc hnf ih =>
    intro hI hstart
    obtain ⟨d, hp, he'⟩ := (refresh_ok_iff e _ e').mp hok
    subst he'
    rw [waitFrom_continue polls timeout e n d hg hp
      (by rw [← applyFetch_status e d]; exact hnc) (by rw [← applyFetch_status e d]; exact hnf)]
    refine ih (resultsInv_applyFetch e d hI (hwb n d hp) (hstart n d le_rfl hp)) ?_
    intro k dk hk hpk hcomp
    rw [applyFetch_status] at hcomp
    exact hmono n k d dk (by omega) hp hpk hcomp
  | case6 e n hg =>
    intro hI _
    rw [waitFrom_timeout polls timeout e n hg]
    exact hI

/-- Under a service stuck on `running`, the loop spends its whole budget and
raises `TimeoutError`. -/
lemma waitFrom_running (polls : Nat → Except SdkError EvalData) (timeout : Int)
    (hrun : ∀ k, ∃ d, polls k = .ok d ∧ d.status = "running") :
    ∀ (e : EvaluationState) (n : Nat), n ≤ iterBudget timeout →
      waitFrom polls timeout e n =
        ⟨.error (.timeoutError
            ("Evaluation " ++ e.id ++ " timed out after " ++ toString timeout ++ " seconds")),
          (waitFrom polls timeout e n).finalState,
          iterBudget timeout, iterBudget timeout, 2 * iterBudget timeout⟩ := by
  intro e n
  induction e, n using waitFrom.induct polls timeout with
  | case1 e n hg err herr =>
    obtain ⟨d, hp, _⟩ := hrun n
    rw [(refresh_error_iff e _ err).mp herr] at hp
    exact absurd hp (by simp)
  | case2 e n hg e' hok hs hr =>
    obtain ⟨d, hp, hds⟩ := hrun n
    obtain ⟨d', hp', he'⟩ := (refresh_ok_iff e _ e').mp hok
    rw [hp] at hp'
    obtain rfl : d = d' := by simpa using hp'
    subst he'
    rw [applyFetch_status, hds] at hs
    exact absurd hs (by simp [EvalStatus.value])
  | case3 e n hg e' hok hs r hr =>
    obtain ⟨d, hp, hds⟩ := hrun n
    obtain ⟨d', hp', he'⟩ := (refresh_ok_iff e _ e').mp hok
    rw [hp] at hp'
    obtain rfl : d = d' := by simpa using hp'
    subst he'
    rw [applyFetch_status, hds] at hs
    exact absurd hs (by simp [EvalStatus.value])
  | case4 e n hg e' hok hnc hs =>
    obtain ⟨d, hp, hds⟩ := hrun n
    obtain ⟨d', hp', he'⟩ := (refresh_ok_iff e _ e').mp hok
    rw [hp] at hp'
    obtain rfl : d = d' := by simpa using hp'
    subst he'
    rw [applyFetch_status, hds] at hs
    exact absurd hs (by simp [EvalStatus.value])
  | case5 e n hg e' hok hnc hnf ih =>
    intro hn
    obtain ⟨d, hp, hds⟩ := hrun n
    obtain ⟨d', hp', he'⟩ := (refresh_ok_iff e _ e').mp hok
    rw [hp] at hp'
    obtain rfl : d = d' := by simpa using hp'
    subst he'
    have hcont := waitFrom_continue polls timeout e n d hg hp
      (by rw [hds]; simp) (by rw [hds]; simp)
    rw [hcont]
    have hn' : n + 1 ≤ iterBudget timeout := by
      have := (two_mul_lt_iff timeout n).mp hg
      omega
    rw [ih hn']
    rw [show (applyFetch e d).id = e.id from rfl]
  | case6 e n hg =>
    intro hn
    have : ¬ n < iterBudget timeout := fun h => hg ((two_mul_lt_iff timeout n).mpr h)
    have hEq : n = iterBudget timeout := by omega
    rw [waitFrom_timeout polls timeout e n hg]
    subst hEq
    rfl

end Evaluation

/-! Claim theorems. -/

/-- Claim C1, counterexample to the claim as stated: with a service whose
fetches fail at the transport level (connection refused), a positive timeout
run of `wait_for_completion` ends in an outcome outside the three the claim
allows — it propagates the `CONNECTION_ERROR` exception. -/
theorem C1_counterexample :
    ¬ c1ClaimOutcomes sampleEval 10
        (Evaluation.wait_for_completion sampleEval pollsConnFail 10).result := by
  rw [Evaluation.wait_for_completion,
    Evaluation.waitFrom_error pollsConnFail 10 sampleEval 0
      (.evalException "Connection failed" (some "CONNECTION_ERROR")) (by norm_num) rfl]
  simp [c1ClaimOutcomes]

/-- Claim C1 as amended: every run of `wait_for_completion` polls at the
fixed interval (elapsed time is `POLLING_INTERVAL` times the number of
sleeps) and ends in exactly one of five ways: a returned payload on status
`completed`; the `EvaluationFailed` exception on status `failed`; the
missing-payload (`InconsistentState`) exception on status `completed` with a
null local payload; the `TimeoutError` once elapsed time reaches the budget;
or an exception propagated out of a failed `refresh`. -/
theorem C1_amended (e : EvaluationState) (polls : Nat → Except SdkError EvalData)
    (timeout : Int) :
    (Evaluation.wait_for_completion e polls timeout).elapsed
        = POLLING_INTERVAL * (Evaluation.wait_for_completion e polls timeout).sleeps ∧
    ((∃ r, (Evaluation.wait_for_completion e polls timeout).result = .ok r ∧
        (Evaluation.wait_for_completion e polls timeout).finalState.status = "completed" ∧
        (Evaluation.wait_for_completion e polls timeout).finalState.results = some r) ∨
      ((Evaluation.wait_for_completion e polls timeout).result
          = .error (.evalException ("Evaluation " ++ e.id ++ " failed") none) ∧
        (Evaluation.wait_for_completion e polls timeout).finalState.status = "failed") ∨
      ((Evaluation.wait_for_completion e polls timeout).result
          = .error (.evalException "Evaluation completed but no results available" none) ∧
        (Evaluation.wait_for_completion e polls timeout).finalState.status = "completed" ∧
        (Evaluation.wait_for_completion e polls timeout).finalState.results = none) ∨
      ((Evaluation.wait_for_completion e polls timeout).result
          = .error (.timeoutError
            ("Evaluation " ++ e.id ++ " timed out after " ++ toString timeout ++ " seconds"))) ∨
      (∃ k err, polls k = .error err ∧
        (Evaluation.wait_for_completion e polls timeout).result = .error err)) :=
  ⟨(Evaluation.waitFrom_shape polls timeout e 0).1,
    Evaluation.waitFrom_cases polls timeout e 0⟩

/-- Claim C2, counterexample to the claim as stated: constructing an
`Evaluation` from a payload that reports status `completed` together with a
result payload still leaves the local `results` null, so the invariant
"result payload non-null iff status = completed" is violated right after
`__init__`. -/
theorem C2_counterexample :
    ¬ resultsInv (Evaluation.init (sampleData "completed" (some sampleResults))) := by
  simp [resultsInv, Evaluation.init, sampleData, EvalStatus.value]

/-- Claim C2 as amended: construction always nulls the result payload, so
the invariant holds after `__init__` exactly when the construction status is
not `completed`; and the invariant is preserved by `refresh` and by
`wait_for_completion` provided every fetched payload carries a results field
exactly when its status is `completed` and the reported status never moves
away from `completed`. -/
theorem C2_amended :
    (∀ d : EvalData, d.status ≠ EvalStatus.COMPLETED.value →
      resultsInv (Evaluation.init d)) ∧
    (∀ (e : EvaluationState) (d : EvalData), resultsInv e → wellBehavedPayload d →
      (e.status = EvalStatus.COMPLETED.value → d.status = EvalStatus.COMPLETED.value) →
      resultsInv (Evaluation.applyFetch e d)) ∧
    (∀ (polls : Nat → Except SdkError EvalData) (timeout : Int) (e : EvaluationState),
      resultsInv e →
      (∀ k d, polls k = .ok d → wellBehavedPayload d) →
      (∀ k d, polls k = .ok d →
        e.status = EvalStatus.COMPLETED.value → d.status = EvalStatus.COMPLETED.value) →
      (∀ j k dj dk, j ≤ k → polls j = .ok dj → polls k = .ok dk →
        dj.status = EvalStatus.COMPLETED.value → dk.status = EvalStatus.COMPLETED.value) →
      resultsInv (Evaluation.wait_for_completion e polls timeout).finalState) := by
  refine ⟨?_, ?_, ?_⟩
  · intro d hd
    unfold resultsInv
    constructor
    · intro h
      exact absurd rfl h
    · intro h
      exact absurd h hd
  · exact fun e d hI hwb hmono => Evaluation.resultsInv_applyFetch e d hI hwb hmono
  · intro polls timeout e hI hwb hstart hmono
    exact Evaluation.waitFrom_resultsInv polls timeout hwb hmono e 0 hI
      (fun k d _ hp => hstart k d hp)

/-- Claim C2, witness: the amended invariant instantiated on a concrete run
over a stuck-on-`running` mock service. -/
theorem C2_witness :
    resultsInv (Evaluation.wait_for_completion sampleEval pollsRunning 5).finalState := by
  refine C2_amended.2.2 pollsRunning 5 sampleEval ?_ ?_ ?_ ?_
  · simp [resultsInv, sampleEval, Evaluation.init, sampleData, EvalStatus.value]
  · intro k d h
    simp only [pollsRunning, Except.ok.injEq] at h
    subst h
    simp [wellBehavedPayload, sampleData, EvalStatus.value]
  · intro k d h hcomp
    simp [sampleEval, Evaluation.init, sampleData, EvalStatus.value] at hcomp
  · intro j k dj dk hjk hj hk hcomp
    simp only [pollsRunning, Except.ok.injEq] at hj
    subst hj
    simp [sampleData, EvalStatus.value] at hcomp

/-- Claim C3: with `timeout ≤ 0` the loop body never runs — `refresh` is not
called even once (`refreshCalls = 0`), nothing sleeps, and `TimeoutError` is
raised immediately. -/
theorem C3_nonpositive_timeout (e : EvaluationState)
    (polls : Nat → Except SdkError EvalData) (timeout : Int) (h : timeout ≤ 0) :
    Evaluation.wait_for_completion e polls timeout =
      ⟨.error (.timeoutError
          ("Evaluation " ++ e.id ++ " timed out after " ++ toString timeout ++ " seconds")),
        e, 0, 0, 0⟩ := by
  rw [Evaluation.wait_for_completion]
  have h0 := Evaluation.waitFrom_timeout polls timeout e 0 (by omega)
  simpa using h0

/-- Claim C3, witness at `timeout = 0`. -/
theorem C3_witness :
    (0 : Int) ≤ 0 ∧
    Evaluation.wait_for_completion sampleEval pollsRunning 0 =
      ⟨.error (.timeoutError
          ("Evaluation " ++ sampleEval.id ++ " timed out after " ++ toString (0 : Int)
            ++ " seconds")),
        sampleEval, 0, 0, 0⟩ :=
  ⟨le_refl 0, C3_nonpositive_timeout sampleEval pollsRunning 0 (le_refl 0)⟩

/-- Claim C4: if a reached polling iteration fetches a payload reporting
`completed` while the local result payload ends up null, the loop raises the
missing-payload `EvalException` ("Evaluation completed but no results
available", no error code) — and that error is distinct from every error
`_request` can raise for a failed remote call, since those all carry a
non-null error code. -/
theorem C4_inconsistent_state (polls : Nat → Except SdkError EvalData)
    (timeout : Int) (e : EvaluationState) (n : Nat) (d : EvalData)
    (hg : (2 * n : Int) < timeout) (hp : polls n = .ok d)
    (hs : d.status = "completed") (hr : (Evaluation.applyFetch e d).results = none) :
    (Evaluation.waitFrom polls timeout e n).result
        = .error (.evalException "Evaluation completed but no results available" none) ∧
    ∀ (timeoutCfg : Int) (endpoint : String) (o : HttpOutcome) (err : SdkError),
      EvalClient.request_get timeoutCfg endpoint o = .error err →
      err ≠ .evalException "Evaluation completed but no results available" none := by
  constructor
  · rw [Evaluation.waitFrom_completed_none polls timeout e n d hg hp hs hr]
  · intro timeoutCfg endpoint o err h
    cases o <;> simp only [EvalClient.request_get] at h <;>
      (try split_ifs at h) <;>
      simp only [Except.error.injEq, reduceCtorEq] at h <;>
      (try subst h) <;> simp

/-- Claim C4, witness: a mock service reporting `completed` with no
`results` field on a fresh evaluation. -/
theorem C4_witness :
    (Evaluation.waitFrom pollsCompletedEmpty 10 sampleEval 0).result
      = .error (.evalException "Evaluation completed but no results available" none) :=
  (C4_inconsistent_state pollsCompletedEmpty 10 sampleEval 0
    (sampleData "completed" none) (by norm_num) rfl rfl rfl).1

/-- Claim C5: on a service reporting `pending`, then `running`, then
`completed` with payload `r`, a run with sufficient budget returns exactly
`r` and calls `refresh` exactly 3 times. -/
theorem C5_three_polls (polls : Nat → Except SdkError EvalData)
    (e : EvaluationState) (timeout : Int) (r : EvaluationResults)
    (d0 d1 d2 : EvalData) (ht : 4 < timeout)
    (hp0 : polls 0 = .ok d0) (hs0 : d0.status = "pending") ( _hr0 : d0.results = none)
    (hp1 : polls 1 = .ok d1) (hs1 : d1.status = "running") ( _hr1 : d1.results = none)
    (hp2 : polls 2 = .ok d2) (hs2 : d2.status = "completed") (hr2 : d2.results = some r) :
    (Evaluation.wait_for_completion e polls timeout).result = .ok r ∧
    (Evaluation.wait_for_completion e polls timeout).refreshCalls = 3 := by
  have h0 := Evaluation.waitFrom_continue polls timeout e 0 d0 (by omega) hp0
    (by rw [hs0]; simp) (by rw [hs0]; simp)
  have h1 := Evaluation.waitFrom_continue polls timeout (Evaluation.applyFetch e d0) 1 d1
    (by omega) hp1 (by rw [hs1]; simp) (by rw [hs1]; simp)
  have h2 := Evaluation.waitFrom_completed_some polls timeout
    (Evaluation.applyFetch (Evaluation.applyFetch e d0) d1) 2 d2 r (by omega) hp2 hs2
    (by simp [Evaluation.applyFetch, hr2])
  rw [Evaluation.wait_for_completion, h0, h1, h2]
  exact ⟨rfl, rfl⟩

/-- Claim C5, witness on the concrete pending/running/completed mock. -/
theorem C5_witness :
    (Evaluation.wait_for_completion sampleEval pollsPRC 300).result = .ok sampleResults ∧
    (Evaluation.wait_for_completion sampleEval pollsPRC 300).refreshCalls = 3 :=
  C5_three_polls pollsPRC sampleEval 300 sampleResults
    (sampleData "pending" none) (sampleData "running" none)
    (sampleData "completed" (some sampleResults))
    (by norm_num) rfl rfl rfl rfl rfl rfl rfl rfl rfl

/-- Claim C6: on a service whose reported status never leaves `running`, a
positive-budget run raises `TimeoutError`, performs exactly
`⌈timeout / 2⌉` polling iterations, and its elapsed time overshoots
`timeout` by less than one polling interval. -/
theorem C6_stuck_running (polls : Nat → Except SdkError EvalData)
    (e : EvaluationState) (timeout : Int) (hpos : 0 < timeout)
    (hrun : ∀ k, ∃ d, polls k = .ok d ∧ d.status = "running") :
    (Evaluation.wait_for_completion e polls timeout).result
        = .error (.timeoutError
          ("Evaluation " ++ e.id ++ " timed out after " ++ toString timeout ++ " seconds")) ∧
    (Evaluation.wait_for_completion e polls timeout).refreshCalls = iterBudget timeout ∧
    timeout ≤ ((Evaluation.wait_for_completion e polls timeout).elapsed : Int) ∧
    ((Evaluation.wait_for_completion e polls timeout).elapsed : Int) < timeout + 2 := by
  have h := Evaluation.waitFrom_running polls timeout hrun e 0 (Nat.zero_le _)
  rw [Evaluation.wait_for_completion, h]
  refine ⟨rfl, rfl, ?_, ?_⟩
  · show timeout ≤ ((2 * iterBudget timeout : Nat) : Int)
    unfold iterBudget
    omega
  · show ((2 * iterBudget timeout : Nat) : Int) < timeout + 2
    unfold iterBudget
    omega

/-- Claim C6, witness with budget 5 (three iterations, elapsed 6). -/
theorem C6_witness :
    (0 : Int) < 5 ∧
    ((Evaluation.wait_for_completion sampleEval pollsRunning 5).result
        = .error (.timeoutError
          ("Evaluation " ++ sampleEval.id ++ " timed out after " ++ toString (5 : Int)
            ++ " seconds")) ∧
      (Evaluation.wait_for_completion sampleEval pollsRunning 5).refreshCalls
        = iterBudget 5) :=
  ⟨by norm_num,
    (C6_stuck_running pollsRunning sampleEval 5 (by norm_num)
      (fun _ => ⟨sampleData "running" none, rfl, rfl⟩)).1,
    (C6_stuck_running pollsRunning sampleEval 5 (by norm_num)
      (fun _ => ⟨sampleData "running" none, rfl, rfl⟩)).2.1⟩

/-- Claim C7: if the fetch of a reached polling iteration fails — the
`_request` error mapping turns the transport outcome into an exception —
`wait_for_completion` propagates exactly that exception at once: one more
refresh call, no further sleep, no retry, no further iteration. -/
theorem C7_service_error_aborts (transport : Nat → HttpOutcome)
    (timeoutCfg : Int) (endpoint : String) (timeout : Int)
    (e : EvaluationState) (n : Nat) (err : SdkError)
    (hg : (2 * n : Int) < timeout)
    (hp : EvalClient.request_get timeoutCfg endpoint (transport n) = .error err) :
    Evaluation.waitFrom
        (fun k => EvalClient.request_get timeoutCfg endpoint (transport k))
        timeout e n
      = ⟨.error err, e, n + 1, n, 2 * n⟩ :=
  Evaluation.waitFrom_error _ timeout e n err hg hp

/-- Claim C7, witness on the connection-failing transport. -/
theorem C7_witness :
    Evaluation.waitFrom pollsConnFail 10 sampleEval 0 =
      ⟨.error (.evalException "Connection failed" (some "CONNECTION_ERROR")),
        sampleEval, 1, 0, 0⟩ :=
  C7_service_error_aborts transportConnFail 30 "/evaluations/eval_001" 10
    sampleEval 0 (.evalException "Connection failed" (some "CONNECTION_ERROR"))
    (by norm_num) rfl

/-- Claim C8: a service reporting `failed` on the first fetch makes a
positive-budget `wait_for_completion` raise the `EvaluationFailed` exception
after exactly one `refresh` call and zero sleeps. -/
theorem C8_failed_first (polls : Nat → Except SdkError EvalData)
    (e : EvaluationState) (timeout : Int) (d : EvalData)
    (hpos : 0 < timeout) (hp : polls 0 = .ok d) (hs : d.status = "failed") :
    Evaluation.wait_for_completion e polls timeout =
      ⟨.error (.evalException ("Evaluation " ++ e.id ++ " failed") none),
        Evaluation.applyFetch e d, 1, 0, 0⟩ := by
  rw [Evaluation.wait_for_completion]
  have h0 := Evaluation.waitFrom_failed polls timeout e 0 d (by omega) hp hs
  simpa using h0

/-- Claim C8, witness on the immediately-failing mock. -/
theorem C8_witness :
    (0 : Int) < 300 ∧
    Evaluation.wait_for_completion sampleEval pollsFailed 300 =
      ⟨.error (.evalException ("Evaluation " ++ sampleEval.id ++ " failed") none),
        Evaluation.applyFetch sampleEval (sampleData "failed" none), 1, 0, 0⟩ :=
  ⟨by norm_num,
    C8_failed_first pollsFailed sampleEval 300 (sampleData "failed" none)
      (by norm_num) rfl rfl⟩

/-- Claim C9: `cancel` always raises `NotImplementedError` (the code's
realization of the spec's `NotSupported`), for every evaluation state; being
a pure function of the state that only returns this error, it can change
nothing. -/
theorem C9_cancel_unsupported (e : EvaluationState) :
    Evaluation.cancel e
      = .error (.notImplementedError "Cancellation not yet implemented") := rfl

/-- Claim C10: `refresh` is atomic on fetch failure — the exception
propagates before any field assignment, so no updated state is produced, and
inside the polling loop the caller-visible `Evaluation` state after such a
failure is exactly the state from before the call. -/
theorem C10_refresh_atomic (e : EvaluationState)
    (polls : Nat → Except SdkError EvalData) (timeout : Int) (n : Nat)
    (err : SdkError) (hg : (2 * n : Int) < timeout) (hp : polls n = .error err) :
    Evaluation.refresh e (polls n) = .error err ∧
    (Evaluation.waitFrom polls timeout e n).finalState = e := by
  constructor
  · rw [hp]
    rfl
  · rw [Evaluation.waitFrom_error polls timeout e n err hg hp]

/-- Claim C10, witness on the connection-failing transport. -/
theorem C10_witness :
    Evaluation.refresh sampleEval (pollsConnFail 0)
        = .error (.evalException "Connection failed" (some "CONNECTION_ERROR")) ∧
    (Evaluation.waitFrom pollsConnFail 10 sampleEval 0).finalState = sampleEval :=
  C10_refresh_atomic sampleEval pollsConnFail 10 0
    (.evalException "Connection failed" (some "CONNECTION_ERROR")) (by norm_num) rfl

end AgentEvalSdk
